import Mathlib

/-!
Shallow embedding of the skeletal skinning subsystem of the minko framework
(framework/src/minko/component/Skinning.cpp), together with theorems checking
its natural-language specification.  Single-precision floats are modelled as
rationals; scene nodes, scene-manager drivers and signal slots are identified
by numeric keys; the std maps keyed by nodes become functions into Option.
-/

namespace Minko

/-- Scene nodes are identified by numeric keys. -/
abbrev Node := Nat

/-- Skinning methods.  Only the SOFTWARE vs non-SOFTWARE distinction is
observable in Skinning.cpp; the HARDWARE constructor stands for every
non-software method. -/
inductive SkinningMethod
  | SOFTWARE
  | HARDWARE
deriving DecidableEq

/-- External animation data source (geometry::Skin) at the interface consumed
by Skinning.cpp: per vertex a list of (boneId, weight) pairs exposed through
numVertexBones / vertexBoneId / vertexBoneWeight / vertexBoneData, and per
frame a flat array of row-major 4x4 bone matrices, 16 floats per bone. -/
structure Skin where
  numVertices : Nat
  numBones : Nat
  numFrames : Nat
  duration : ℚ
  maxNumVertexBones : Nat
  vertexBones : Nat → List (Nat × ℚ)
  matricesOf : Nat → List ℚ
  getFrameId : ℚ → Nat

/-- A named vertex attribute: (name, width in floats, offset in floats),
mirroring render::VertexBuffer attribute tuples. -/
structure VertexAttribute where
  name : String
  size : Nat
  offset : Nat
deriving DecidableEq

/-- A vertex buffer: raw float storage, stride in floats, named attributes. -/
structure VertexBuffer where
  data : List ℚ
  vertexSize : Nat
  attributes : List VertexAttribute
deriving DecidableEq

/-- Number of vertices stored in a buffer (storage size divided by stride). -/
def VertexBuffer.numVertices (vb : VertexBuffer) : Nat :=
  vb.data.length / vb.vertexSize

/-- The attribute lookup loop of Skinning::performSoftwareSkinning: scan all
attributes and keep the last one whose name matches. -/
def VertexBuffer.findAttribute (vb : VertexBuffer) (n : String) : Option VertexAttribute :=
  vb.attributes.foldl (fun acc a => if a.name = n then some a else acc) none

/-- A geometry as seen from Skinning.cpp: the buffer holding the position
attribute (if any), the buffer holding the normal attribute (if any), whether
the shared bone vertex buffer is currently attached, and the two entries of
the key/value property store that Skinning.cpp touches. -/
structure Geometry where
  positionBuffer : Option VertexBuffer
  normalBuffer : Option VertexBuffer
  hasBoneBuffer : Bool
  propNumBones : Option Int
  propBoneMatrices : Option (Nat × List ℚ)
deriving DecidableEq

/-- Hardware cap on bones per vertex (Skinning::MAX_NUM_BONES_PER_VERTEX). -/
def MAX_NUM_BONES_PER_VERTEX : Nat := 8

/-- Property name "geometry.numBones". -/
def PNAME_NUM_BONES : String := "geometry.numBones"

/-- Property name "geometry.boneMatrices". -/
def PNAME_BONE_MATRICES : String := "geometry.boneMatrices"

/-- Attribute name "position". -/
def ATTRNAME_POSITION : String := "position"

/-- Attribute name "normal". -/
def ATTRNAME_NORMAL : String := "normal"

/-- Attribute name "boneIdsA". -/
def ATTRNAME_BONE_IDS_A : String := "boneIdsA"

/-- Attribute name "boneIdsB". -/
def ATTRNAME_BONE_IDS_B : String := "boneIdsB"

/-- Attribute name "boneWeightsA". -/
def ATTRNAME_BONE_WEIGHTS_A : String := "boneWeightsA"

/-- Attribute name "boneWeightsB". -/
def ATTRNAME_BONE_WEIGHTS_B : String := "boneWeightsB"

/-- The bone data packing loop of Skinning::createVertexBufferForBones: a
zero-initialised array of numVertices * 16 floats; for vertex vId the loop
writes bone ids at vId*16 + j and bone weights at vId*16 + 8 + j, in both
cases only while j < numVertexBones and j < (vertexSize >> 2) = 4. -/
def packBones (skin : Skin) : List ℚ :=
  let vertexSize := 16
  (List.range skin.numVertices).foldl
    (fun vertexData vId =>
      let numVertexBones := (skin.vertexBones vId).length
      let index := vId * vertexSize
      let d1 := (List.range (min numVertexBones (vertexSize >>> 2))).foldl
        (fun d j => d.set (index + j) ((((skin.vertexBones vId).getD j (0, 0)).1 : ℚ))) vertexData
      (List.range (min numVertexBones (vertexSize >>> 2))).foldl
        (fun d j => d.set (index + (vertexSize >>> 1) + j) (((skin.vertexBones vId).getD j (0, 0)).2)) d1)
    (List.replicate (skin.numVertices * vertexSize) (0 : ℚ))

/-- Skinning::createVertexBufferForBones: pack the bone data and expose the
four 4-wide attributes at float offsets 0, 4, 8, 12. -/
def createVertexBufferForBones (skin : Skin) : VertexBuffer :=
  { data := packBones skin
    vertexSize := 16
    attributes := [⟨ATTRNAME_BONE_IDS_A, 4, 0⟩, ⟨ATTRNAME_BONE_IDS_B, 4, 4⟩,
                   ⟨ATTRNAME_BONE_WEIGHTS_A, 4, 8⟩, ⟨ATTRNAME_BONE_WEIGHTS_B, 4, 12⟩] }

/-- The method-downgrade and buffer-creation logic of Skinning::initialize
(given a non-null skin and context): a non-SOFTWARE request whose skin has
maxNumVertexBones above the cap is downgraded to SOFTWARE; the bone vertex
buffer is created exactly when the effective method is not SOFTWARE. -/
def skinningInit (skin : Skin) (method : SkinningMethod) : SkinningMethod × Option VertexBuffer :=
  let m := if method ≠ SkinningMethod.SOFTWARE ∧ MAX_NUM_BONES_PER_VERTEX < skin.maxNumVertexBones
    then SkinningMethod.SOFTWARE else method
  (m, if m = SkinningMethod.SOFTWARE then none else some (createVertexBufferForBones skin))

/-- The mutable component state of Skinning.cpp: the skin, the effective
method, the shared bone vertex buffer, the four per-target maps, and the
frame-begin subscription slot (holding the id of the subscribed driver). -/
structure SkinningState where
  skin : Skin
  method : SkinningMethod
  boneVertexBuffer : Option VertexBuffer
  targetGeometry : Node → Option Geometry
  targetStartTime : Node → Option ℚ
  targetInputPositions : Node → Option (List ℚ)
  targetInputNormals : Node → Option (List ℚ)
  frameBeginSlot : Option Nat

/-- Skinning::findSceneManager and Skinning::setSceneManager: roots is the
list of root ancestors of the targets that carry a SceneManager.  More than
one root throws std::logic_error; exactly one subscribes the frame-begin slot
to that driver; none resets a non-null slot to null. -/
def findSceneManager (roots : List Nat) (slot : Option Nat) : Except String (Option Nat) :=
  if 1 < roots.length then Except.error "Renderer cannot be in two separate scenes."
  else if roots.length = 1 then Except.ok (some (roots.headD 0))
  else Except.ok (if slot.isSome then none else slot)

/-- The per-vertex accumulation loop of the inner
Skinning::performSoftwareSkinning: fold over the (boneId, weight) pairs of
vertex vId, fetching the 16-float matrix block at boneId << 4 and adding the
weighted affine (position) or linear (delta) transform of (x1, y1, z1). -/
def skinVertex (skin : Skin) (boneMatrices : List ℚ) (doDeltaTransform : Bool)
    (vId : Nat) (x1 y1 z1 : ℚ) : ℚ × ℚ × ℚ :=
  (skin.vertexBones vId).foldl
    (fun acc bw =>
      let m : Nat → ℚ := fun k => boneMatrices.getD ((bw.1 <<< 4) + k) 0
      if doDeltaTransform then
        (acc.1 + bw.2 * (m 0 * x1 + m 1 * y1 + m 2 * z1),
         acc.2.1 + bw.2 * (m 4 * x1 + m 5 * y1 + m 6 * z1),
         acc.2.2 + bw.2 * (m 8 * x1 + m 9 * y1 + m 10 * z1))
      else
        (acc.1 + bw.2 * (m 0 * x1 + m 1 * y1 + m 2 * z1 + m 3),
         acc.2.1 + bw.2 * (m 4 * x1 + m 5 * y1 + m 6 * z1 + m 7),
         acc.2.2 + bw.2 * (m 8 * x1 + m 9 * y1 + m 10 * z1 + m 11)))
    (0, 0, 0)

/-- One iteration of the vertex loop of the inner
Skinning::performSoftwareSkinning: read (x1, y1, z1) from the snapshot at
index = offset + vId * stride, blend, and write (x2, y2, z2) into the live
data at the same three indices. -/
def skinVertexPass (skin : Skin) (boneMatrices : List ℚ) (doDeltaTransform : Bool)
    (offset stride : Nat) (inputData : List ℚ) (out : List ℚ) (vId : Nat) : List ℚ :=
  let index := offset + vId * stride
  let r := skinVertex skin boneMatrices doDeltaTransform vId
    (inputData.getD index 0) (inputData.getD (index + 1) 0) (inputData.getD (index + 2) 0)
  ((out.set index r.1).set (index + 1) r.2.1).set (index + 2) r.2.2

/-- The full vertex loop of the inner Skinning::performSoftwareSkinning over
a raw data array: numVertices is the live data size divided by the stride,
and the loop runs vId = 0 .. numVertices - 1. -/
def skinAttributeData (skin : Skin) (boneMatrices : List ℚ) (doDeltaTransform : Bool)
    (offset stride : Nat) (inputData : List ℚ) (out : List ℚ) : List ℚ :=
  (List.range (out.length / stride)).foldl
    (skinVertexPass skin boneMatrices doDeltaTransform offset stride inputData) out

/-- The inner Skinning::performSoftwareSkinning on a whole vertex buffer:
rewrite the buffer storage through the vertex loop (the final upload call has
no observable effect on the stored data). -/
def performSoftwareSkinningAttr (skin : Skin) (attr : VertexAttribute) (vb : VertexBuffer)
    (inputData : List ℚ) (boneMatrices : List ℚ) (doDeltaTransform : Bool) : VertexBuffer :=
  { vb with data := (skinAttributeData skin boneMatrices doDeltaTransform
                      attr.offset vb.vertexSize inputData vb.data) }

/-- The outer Skinning::performSoftwareSkinning: transform the position
attribute from the position snapshot, then, if a normal attribute and a
normal snapshot exist, transform it with the delta (translation-free)
transform. -/
def performSoftwareSkinning (s : SkinningState) (target : Node) (boneMatrices : List ℚ) :
    SkinningState :=
  match s.targetGeometry target with
  | none => s
  | some g =>
    let g1 := match g.positionBuffer, s.targetInputPositions target with
      | some pb, some inp =>
        (match pb.findAttribute ATTRNAME_POSITION with
         | some attr =>
            { g with positionBuffer :=
                      some (performSoftwareSkinningAttr s.skin attr pb inp boneMatrices false) }
         | none => g)
      | _, _ => g
    let g2 := match g1.normalBuffer, s.targetInputNormals target with
      | some nb, some inpN =>
        (match nb.findAttribute ATTRNAME_NORMAL with
         | some attr =>
            { g1 with normalBuffer :=
                      some (performSoftwareSkinningAttr s.skin attr nb inpN boneMatrices true) }
         | none => g1)
      | _, _ => g1
    { s with targetGeometry := fun n => if n = target then some g2 else s.targetGeometry n }

/-- Skinning::updateFrame: skip when the target is not in the geometry map or
the frame id is out of range; otherwise fetch the frame matrices and either
publish them on the property store (HARDWARE) or blend on the host. -/
def updateFrame (s : SkinningState) (target : Node) (frameId : Nat) : SkinningState :=
  if s.targetGeometry target = none ∨ s.skin.numFrames ≤ frameId then s
  else
    let boneMatrices := s.skin.matricesOf frameId
    if s.method = SkinningMethod.HARDWARE then
      match s.targetGeometry target with
      | none => s
      | some g =>
        let g1 := { g with propNumBones := some (s.skin.numBones : Int),
                           propBoneMatrices := some (s.skin.numBones, boneMatrices) }
        { s with targetGeometry := fun n => if n = target then some g1 else s.targetGeometry n }
    else performSoftwareSkinning s target boneMatrices

/-- The body of Skinning::addedHandler after the findSceneManager call: skip
zero-duration animations; for a node carrying a surface whose geometry has a
position attribute with exactly skin.numVertices vertices, register the
target in the maps, snapshot the position (and, when compatible, normal)
data, and for non-SOFTWARE methods attach the shared bone buffer and install
the two property-store bindings on the geometry. -/
def addedHandlerBody (s : SkinningState) (node : Node) (surfaceGeometry : Option Geometry)
    (now : ℚ) : SkinningState :=
  if s.skin.duration < mkRat 1 1000000 then s
  else match surfaceGeometry with
  | none => s
  | some geometry =>
    match geometry.positionBuffer with
    | some pb =>
      if pb.numVertices = s.skin.numVertices then
        let newInputNormals := match geometry.normalBuffer with
          | some nb =>
            if nb.numVertices = s.skin.numVertices
              then (fun n => if n = node then some nb.data else s.targetInputNormals n)
              else s.targetInputNormals
          | none => s.targetInputNormals
        let g1 := if s.method ≠ SkinningMethod.SOFTWARE then
            { geometry with hasBoneBuffer := true,
                            propBoneMatrices := some (0, ([] : List ℚ)),
                            propNumBones := some 0 }
          else geometry
        { s with
          targetGeometry := fun n => if n = node then some g1 else s.targetGeometry n,
          targetStartTime := fun n => if n = node then some now else s.targetStartTime n,
          targetInputPositions := fun n => if n = node then some pb.data else s.targetInputPositions n,
          targetInputNormals := newInputNormals }
      else s
    | none => s

/-- Skinning::addedHandler: run findSceneManager (which may throw), then the
registration body.  The surfaceGeometry argument is the geometry of the
surface carried by the attaching node, none when it has no surface; now is
the attachment clock reading in seconds. -/
def addedHandler (s : SkinningState) (roots : List Nat) (node : Node)
    (surfaceGeometry : Option Geometry) (now : ℚ) : Except String SkinningState :=
  match findSceneManager roots s.frameBeginSlot with
  | Except.error e => Except.error e
  | Except.ok slot =>
      Except.ok (addedHandlerBody { s with frameBeginSlot := slot } node surfaceGeometry now)

/-- The body of Skinning::removedHandler after the findSceneManager call: if
the target is registered, undo the non-SOFTWARE geometry modifications
(detach the bone buffer, unset both property bindings) on its geometry, then
erase the target from all four maps.  The second component is the resulting
state of the geometry object shared with the scene (none when the target was
not registered and no geometry was touched). -/
def removedHandlerBody (s : SkinningState) (target : Node) : SkinningState × Option Geometry :=
  match s.targetGeometry target with
  | some geometry =>
    let g1 := if s.method ≠ SkinningMethod.SOFTWARE then
        { geometry with hasBoneBuffer := false, propBoneMatrices := none, propNumBones := none }
      else geometry
    ({ s with
        targetGeometry := fun n => if n = target then none else s.targetGeometry n,
        targetStartTime := fun n => if n = target then none else s.targetStartTime n,
        targetInputPositions := fun n => if n = target then none else s.targetInputPositions n,
        targetInputNormals := fun n => if n = target then none else s.targetInputNormals n },
     some g1)
  | none =>
    ({ s with
        targetStartTime := fun n => if n = target then none else s.targetStartTime n,
        targetInputPositions := fun n => if n = target then none else s.targetInputPositions n,
        targetInputNormals := fun n => if n = target then none else s.targetInputNormals n },
     none)

/-- Skinning::removedHandler: run findSceneManager (which may throw), then
the cleanup body. -/
def removedHandler (s : SkinningState) (roots : List Nat) (target : Node) :
    Except String (SkinningState × Option Geometry) :=
  match findSceneManager roots s.frameBeginSlot with
  | Except.error e => Except.error e
  | Except.ok slot => Except.ok (removedHandlerBody { s with frameBeginSlot := slot } target)

/-- Test fixture: a skin with a single vertex influenced by one bone at full
weight, one frame whose only bone matrix is the identity, and
maxNumVertexBones = 12 (above the hardware cap). -/
def testSkin12 : Skin :=
  { numVertices := 1
    numBones := 1
    numFrames := 1
    duration := 1
    maxNumVertexBones := 12
    vertexBones := fun _ => [(0, 1)]
    matricesOf := fun _ => [1, 0, 0, 0, 0, 1, 0, 0, 0, 0, 1, 0, 0, 0, 0, 1]
    getFrameId := fun _ => 0 }

/-- Test fixture: the same skin with maxNumVertexBones = 8 (at the cap). -/
def testSkin8 : Skin :=
  { testSkin12 with maxNumVertexBones := 8 }

/-- Test fixture: a component state over testSkin8 in SOFTWARE mode with no
tracked target. -/
def testEmptyState : SkinningState :=
  { skin := testSkin8
    method := SkinningMethod.SOFTWARE
    boneVertexBuffer := none
    targetGeometry := fun _ => none
    targetStartTime := fun _ => none
    targetInputPositions := fun _ => none
    targetInputNormals := fun _ => none
    frameBeginSlot := none }

/-- A row-major 4x4 pure-translation matrix with translation (tx, ty, tz)
flattened to 16 floats, written from the claim for comparison with the code:
identity rotation block, translation in entries 3, 7 and 11. -/
def pureTranslationMatrix (tx ty tz : ℚ) : List ℚ :=
  [1, 0, 0, tx, 0, 1, 0, ty, 0, 0, 1, tz, 0, 0, 0, 1]

/-- Test fixture: a one-vertex skin whose only vertex has no bone influence. -/
def bonelessSkin : Skin :=
  { testSkin8 with vertexBones := fun _ => [] }

/-- Test fixture: a 3-float position buffer (one vertex, stride 3) carrying a
single position attribute at offset 0. -/
def testPositionBuffer : VertexBuffer :=
  { data := [0, 0, 0]
    vertexSize := 3
    attributes := [⟨ATTRNAME_POSITION, 3, 0⟩] }

/-- Test fixture: a geometry carrying only the position buffer. -/
def testGeometrySW : Geometry :=
  { positionBuffer := some testPositionBuffer
    normalBuffer := none
    hasBoneBuffer := false
    propNumBones := none
    propBoneMatrices := none }

/-- Test fixture: testEmptyState with node 0 tracked: geometry, start time
and position snapshot (1, 2, 3) registered. -/
def testTrackedState : SkinningState :=
  { testEmptyState with
      targetGeometry := fun n => if n = 0 then some testGeometrySW else none
      targetStartTime := fun n => if n = 0 then some 0 else none
      targetInputPositions := fun n => if n = 0 then some [1, 2, 3] else none }

/-- Claim C3: with a skin above the hardware cap of 8 bones per vertex, a
non-SOFTWARE request is downgraded to SOFTWARE and no bone vertex buffer is
created; with a skin at or below the cap, the requested method is kept. -/
theorem c3_cap_downgrades_to_software (skin : Skin) (method : SkinningMethod) :
    (method ≠ SkinningMethod.SOFTWARE → MAX_NUM_BONES_PER_VERTEX < skin.maxNumVertexBones →
      (skinningInit skin method).1 = SkinningMethod.SOFTWARE ∧
      (skinningInit skin method).2 = none) ∧
    (skin.maxNumVertexBones ≤ MAX_NUM_BONES_PER_VERTEX →
      (skinningInit skin method).1 = method) := by
  constructor
  · intro hm hcap
    simp [skinningInit, hm, hcap]
  · intro hcap
    have hnot : ¬ MAX_NUM_BONES_PER_VERTEX < skin.maxNumVertexBones := Nat.not_lt.mpr hcap
    by_cases hm : method = SkinningMethod.SOFTWARE <;> simp [skinningInit, hm, hnot]

/-- Concrete run of C3: a hardware request with maxNumVertexBones = 12 ends
up SOFTWARE with no bone buffer, and with maxNumVertexBones = 8 it is kept. -/
theorem c3_cap_downgrades_to_software_witness :
    ((skinningInit testSkin12 SkinningMethod.HARDWARE).1 = SkinningMethod.SOFTWARE ∧
      (skinningInit testSkin12 SkinningMethod.HARDWARE).2 = none) ∧
    (skinningInit testSkin8 SkinningMethod.HARDWARE).1 = SkinningMethod.HARDWARE :=
  ⟨(c3_cap_downgrades_to_software testSkin12 SkinningMethod.HARDWARE).1
      (by decide) (by decide),
   (c3_cap_downgrades_to_software testSkin8 SkinningMethod.HARDWARE).2 (by decide)⟩

/-- Test fixture: a one-vertex skin whose vertex is influenced by five bones
with ids 1..5, each with weight 1, within the hardware cap of 8. -/
def fiveBoneSkin : Skin :=
  { numVertices := 1
    numBones := 6
    numFrames := 1
    duration := 1
    maxNumVertexBones := 5
    vertexBones := fun _ => [(1, 1), (2, 1), (3, 1), (4, 1), (5, 1)]
    matricesOf := fun _ => []
    getFrameId := fun _ => 0 }

/-- Test fixture: the empty state switched to hardware skinning. -/
def testEmptyStateHW : SkinningState :=
  { testEmptyState with method := SkinningMethod.HARDWARE }

/-- Test fixture: the hardware-mode state right after attaching node 0 with
the position-only geometry. -/
def testAttachedStateHW : SkinningState :=
  addedHandlerBody { testEmptyStateHW with frameBeginSlot := none } 0 (some testGeometrySW) 0

/-- Test fixture: state and returned geometry right after detaching node 0
from testAttachedStateHW. -/
def testDetachedResultHW : SkinningState × Option Geometry :=
  removedHandlerBody { testAttachedStateHW with frameBeginSlot := none } 0

/-- Test fixture: the software-mode state right after attaching node 0 with
the position-only geometry (no normal attribute, hence no normal snapshot). -/
def testAttachedStateSW : SkinningState :=
  addedHandlerBody { testEmptyState with frameBeginSlot := none } 0 (some testGeometrySW) 0

/-- The amended tracking invariant: the startTime and inputPositions maps
have exactly the key set of the geometry map, and every inputNormals entry
belongs to a tracked node (written from the amended claim for comparison
with the handlers). -/
def tracksConsistently (s : SkinningState) : Prop :=
  ∀ n : Node,
    (s.targetStartTime n).isSome = (s.targetGeometry n).isSome ∧
    (s.targetInputPositions n).isSome = (s.targetGeometry n).isSome ∧
    ((s.targetInputNormals n).isSome = true → (s.targetGeometry n).isSome = true)

/-- Claim C5: updateFrame for a target absent from the geometry map, or for a
frame id at or beyond numFrames, returns the state unchanged: no buffer
write, no property binding, no error. -/
theorem c5_update_frame_skips (s : SkinningState) (target : Node) (frameId : Nat)
    (h : s.targetGeometry target = none ∨ s.skin.numFrames ≤ frameId) :
    updateFrame s target frameId = s := by
  unfold updateFrame
  rw [if_pos h]

/-- Concrete run of C5: the empty state is untouched by an update for an
untracked target with an out-of-range frame id. -/
theorem c5_update_frame_skips_witness :
    (testEmptyState.targetGeometry 0 = none ∨ testEmptyState.skin.numFrames ≤ 5) ∧
    updateFrame testEmptyState 0 5 = testEmptyState :=
  ⟨Or.inl rfl, c5_update_frame_skips testEmptyState 0 5 (Or.inl rfl)⟩

/-- Claim C8: the scene-manager lookup fails with the logic error when more
than one driver root is found, subscribes to the single driver when exactly
one is found, and unsubscribes without error when none is found. -/
theorem c8_find_scene_manager_cases (roots : List Nat) (slot : Option Nat) :
    (1 < roots.length →
      findSceneManager roots slot = Except.error "Renderer cannot be in two separate scenes.") ∧
    (∀ m, roots = [m] → findSceneManager roots slot = Except.ok (some m)) ∧
    (roots = [] → findSceneManager roots slot = Except.ok none) := by
  refine ⟨fun h => ?_, fun m hm => ?_, fun h => ?_⟩
  · simp [findSceneManager, h]
  · subst hm; simp [findSceneManager]
  · subst h; cases slot <;> simp [findSceneManager]

/-- Concrete run of C8: two roots raise the error, one root subscribes to it,
zero roots clear an existing subscription without error. -/
theorem c8_find_scene_manager_cases_witness :
    findSceneManager [3, 7] none = Except.error "Renderer cannot be in two separate scenes." ∧
    findSceneManager [3] none = Except.ok (some 3) ∧
    findSceneManager [] (some 3) = Except.ok none :=
  ⟨(c8_find_scene_manager_cases [3, 7] none).1 (by decide),
   (c8_find_scene_manager_cases [3] none).2.1 3 rfl,
   (c8_find_scene_manager_cases [] (some 3)).2.2 rfl⟩

/-- Claim C2: for a vertex with the single influence (b, weight 1) whose bone
matrix is a pure translation, the position transform shifts the bind-pose
coordinate by the translation vector while the delta transform (used for
normals) leaves it unchanged. -/
theorem c2_translation_position_vs_delta (skin : Skin) (bm : List ℚ) (v b : Nat)
    (x1 y1 z1 tx ty tz : ℚ)
    (hbones : skin.vertexBones v = [(b, 1)])
    (hm : ∀ k, k < 16 → bm.getD (b * 16 + k) 0 = (pureTranslationMatrix tx ty tz).getD k 0) :
    skinVertex skin bm false v x1 y1 z1 = (x1 + tx, y1 + ty, z1 + tz) ∧
    skinVertex skin bm true v x1 y1 z1 = (x1, y1, z1) := by
  have hs : b <<< 4 = b * 16 := by rw [Nat.shiftLeft_eq]
  have h0 := hm 0 (by norm_num); have h1 := hm 1 (by norm_num)
  have h2 := hm 2 (by norm_num); have h3 := hm 3 (by norm_num)
  have h4 := hm 4 (by norm_num); have h5 := hm 5 (by norm_num)
  have h6 := hm 6 (by norm_num); have h7 := hm 7 (by norm_num)
  have h8 := hm 8 (by norm_num); have h9 := hm 9 (by norm_num)
  have h10 := hm 10 (by norm_num); have h11 := hm 11 (by norm_num)
  simp only [pureTranslationMatrix, List.getD_cons_zero, List.getD_cons_succ,
    Nat.add_zero, List.getD_eq_getElem?_getD] at h0 h1 h2 h3 h4 h5 h6 h7 h8 h9 h10 h11
  constructor <;>
    simp [skinVertex, hbones, hs, h0, h1, h2, h3, h4, h5, h6, h7, h8, h9, h10, h11]

/-- Concrete run of C2: bone 0 translating by (10, 20, 30) moves the
bind-pose point (1, 2, 3) to (11, 22, 33) under the position transform and
leaves it at (1, 2, 3) under the delta transform. -/
theorem c2_translation_position_vs_delta_witness :
    skinVertex testSkin8 (pureTranslationMatrix 10 20 30) false 0 1 2 3 = (1 + 10, 2 + 20, 3 + 30) ∧
    skinVertex testSkin8 (pureTranslationMatrix 10 20 30) true 0 1 2 3 = (1, 2, 3) :=
  c2_translation_position_vs_delta testSkin8 (pureTranslationMatrix 10 20 30) 0 0 1 2 3 10 20 30
    rfl (fun k _ => by simp)

/-- Reading beside the index written by List.set is unchanged. -/
theorem getD_set_ne (l : List ℚ) (i j : Nat) (a : ℚ) (h : i ≠ j) :
    (l.set i a).getD j 0 = l.getD j 0 := by
  simp [List.getD_eq_getElem?_getD, List.getElem?_set_ne h]

/-- Reading the in-bounds index written by List.set yields the new value. -/
theorem getD_set_self (l : List ℚ) (i : Nat) (a : ℚ) (h : i < l.length) :
    (l.set i a).getD i 0 = a := by
  simp [List.getD_eq_getElem?_getD, List.getElem?_set_eq_of_lt a h]

/-- Slots of two different vertices of the same attribute never collide when
the stride is at least 3. -/
theorem slot_ne_of_vertex_lt (off stride v w k kk : Nat) (hstride : 3 ≤ stride)
    (hvw : v < w) (hk : k < 3) (hkk : kk < 3) :
    off + w * stride + kk ≠ off + v * stride + k := by
  have h1 : (v + 1) * stride ≤ w * stride := Nat.mul_le_mul_right stride hvw
  have h2 : v * stride + stride = (v + 1) * stride := by ring
  omega

/-- The software vertex loop preserves the size of the live data array. -/
theorem skinLoop_length (skin : Skin) (bm : List ℚ) (delta : Bool) (off stride : Nat)
    (input : List ℚ) :
    ∀ (n : Nat) (out : List ℚ),
      ((List.range n).foldl (skinVertexPass skin bm delta off stride input) out).length
        = out.length := by
  intro n
  induction n with
  | zero => intro out; simp
  | succ m ih =>
      intro out
      rw [List.range_succ, List.foldl_append, List.foldl_cons, List.foldl_nil]
      simp only [skinVertexPass, List.length_set]
      exact ih out

/-- Floats outside the three written slots of every processed vertex are
untouched by the software vertex loop. -/
theorem skinLoop_getD_untouched (skin : Skin) (bm : List ℚ) (delta : Bool)
    (off stride : Nat) (input : List ℚ) (j : Nat) :
    ∀ (n : Nat) (out : List ℚ),
      (∀ v, v < n → ∀ k, k < 3 → j ≠ off + v * stride + k) →
      ((List.range n).foldl (skinVertexPass skin bm delta off stride input) out).getD j 0
        = out.getD j 0 := by
  intro n
  induction n with
  | zero => intro out _; simp
  | succ m ih =>
      intro out h
      rw [List.range_succ, List.foldl_append, List.foldl_cons, List.foldl_nil]
      have e0 : off + m * stride ≠ j := by
        have := h m (Nat.lt_succ_self m) 0 (by omega)
        omega
      have e1 : off + m * stride + 1 ≠ j := fun he => h m (Nat.lt_succ_self m) 1 (by omega) he.symm
      have e2 : off + m * stride + 2 ≠ j := fun he => h m (Nat.lt_succ_self m) 2 (by omega) he.symm
      simp only [skinVertexPass]
      rw [getD_set_ne _ _ _ _ e2, getD_set_ne _ _ _ _ e1, getD_set_ne _ _ _ _ e0]
      exact ih out (fun v hv k hk => h v (by omega) k hk)

/-- After the software vertex loop, the three slots of each processed vertex
hold the blended triple computed by skinVertex from the snapshot data. -/
theorem skinLoop_getD_slot (skin : Skin) (bm : List ℚ) (delta : Bool)
    (off stride : Nat) (input : List ℚ) (hstride : 3 ≤ stride) :
    ∀ (n : Nat) (out : List ℚ) (v : Nat), v < n → off + v * stride + 2 < out.length →
      (((List.range n).foldl (skinVertexPass skin bm delta off stride input) out).getD
          (off + v * stride) 0,
       ((List.range n).foldl (skinVertexPass skin bm delta off stride input) out).getD
          (off + v * stride + 1) 0,
       ((List.range n).foldl (skinVertexPass skin bm delta off stride input) out).getD
          (off + v * stride + 2) 0)
        = skinVertex skin bm delta v (input.getD (off + v * stride) 0)
            (input.getD (off + v * stride + 1) 0) (input.getD (off + v * stride + 2) 0) := by
  intro n
  induction n with
  | zero => intro out v hv; exact absurd hv (Nat.not_lt_zero v)
  | succ m ih =>
      intro out v hv hb
      rw [List.range_succ, List.foldl_append, List.foldl_cons, List.foldl_nil]
      have hlen : ((List.range m).foldl (skinVertexPass skin bm delta off stride input)
          out).length = out.length := skinLoop_length skin bm delta off stride input m out
      by_cases hvm : v = m
      · subst hvm
        simp only [skinVertexPass]
        refine Prod.ext ?_ (Prod.ext ?_ ?_)
        · simp only
          rw [getD_set_ne _ _ _ _ (by omega), getD_set_ne _ _ _ _ (by omega),
            getD_set_self _ _ _ (by omega)]
        · simp only
          rw [getD_set_ne _ _ _ _ (by omega),
            getD_set_self _ _ _ (by simp only [List.length_set]; omega)]
        · simp only
          rw [getD_set_self _ _ _ (by simp only [List.length_set]; omega)]
      · have hvm' : v < m := by omega
        simp only [skinVertexPass]
        have d0 := slot_ne_of_vertex_lt off stride v m 0 0 hstride hvm' (by omega) (by omega)
        have d1 := slot_ne_of_vertex_lt off stride v m 0 1 hstride hvm' (by omega) (by omega)
        have d2 := slot_ne_of_vertex_lt off stride v m 0 2 hstride hvm' (by omega) (by omega)
        have e0 := slot_ne_of_vertex_lt off stride v m 1 0 hstride hvm' (by omega) (by omega)
        have e1 := slot_ne_of_vertex_lt off stride v m 1 1 hstride hvm' (by omega) (by omega)
        have e2 := slot_ne_of_vertex_lt off stride v m 1 2 hstride hvm' (by omega) (by omega)
        have f0 := slot_ne_of_vertex_lt off stride v m 2 0 hstride hvm' (by omega) (by omega)
        have f1 := slot_ne_of_vertex_lt off stride v m 2 1 hstride hvm' (by omega) (by omega)
        have f2 := slot_ne_of_vertex_lt off stride v m 2 2 hstride hvm' (by omega) (by omega)
        rw [getD_set_ne _ _ _ _ (by omega : off + m * stride + 2 ≠ off + v * stride),
          getD_set_ne _ _ _ _ (by omega : off + m * stride + 1 ≠ off + v * stride),
          getD_set_ne _ _ _ _ (by omega : off + m * stride ≠ off + v * stride),
          getD_set_ne _ _ _ _ (by omega : off + m * stride + 2 ≠ off + v * stride + 1),
          getD_set_ne _ _ _ _ (by omega : off + m * stride + 1 ≠ off + v * stride + 1),
          getD_set_ne _ _ _ _ (by omega : off + m * stride ≠ off + v * stride + 1),
          getD_set_ne _ _ _ _ (by omega : off + m * stride + 2 ≠ off + v * stride + 2),
          getD_set_ne _ _ _ _ (by omega : off + m * stride + 1 ≠ off + v * stride + 2),
          getD_set_ne _ _ _ _ (by omega : off + m * stride ≠ off + v * stride + 2)]
        exact ih out v hvm' hb

/-- Claim C9: the software pass for one attribute rewrites only the three
floats at the attribute offset within each vertex stride: the buffer size is
unchanged and every float outside those slots keeps its value. -/
theorem c9_pass_touches_only_attribute_slots (skin : Skin) (bm : List ℚ) (delta : Bool)
    (off stride : Nat) (input out : List ℚ) (j : Nat)
    (h : ∀ v, v < out.length / stride → ∀ k, k < 3 → j ≠ off + v * stride + k) :
    (skinAttributeData skin bm delta off stride input out).length = out.length ∧
    (skinAttributeData skin bm delta off stride input out).getD j 0 = out.getD j 0 :=
  ⟨skinLoop_length skin bm delta off stride input (out.length / stride) out,
   skinLoop_getD_untouched skin bm delta off stride input j (out.length / stride) out h⟩

/-- Concrete run of C9: with stride 4 and the attribute at offset 0, float 3
of the first row (value 40) survives the software pass untouched. -/
theorem c9_pass_touches_only_attribute_slots_witness :
    (∀ v, v < ([10, 20, 30, 40, 50, 60, 70, 80] : List ℚ).length / 4 →
      ∀ k, k < 3 → 3 ≠ 0 + v * 4 + k) ∧
    ((skinAttributeData testSkin8 (testSkin8.matricesOf 0) false 0 4
        [1, 2, 3, 4, 5, 6, 7, 8] [10, 20, 30, 40, 50, 60, 70, 80]).length
      = ([10, 20, 30, 40, 50, 60, 70, 80] : List ℚ).length ∧
     (skinAttributeData testSkin8 (testSkin8.matricesOf 0) false 0 4
        [1, 2, 3, 4, 5, 6, 7, 8] [10, 20, 30, 40, 50, 60, 70, 80]).getD 3 0
      = ([10, 20, 30, 40, 50, 60, 70, 80] : List ℚ).getD 3 0) :=
  ⟨by decide,
   c9_pass_touches_only_attribute_slots testSkin8 (testSkin8.matricesOf 0) false 0 4
     [1, 2, 3, 4, 5, 6, 7, 8] [10, 20, 30, 40, 50, 60, 70, 80] 3 (by decide)⟩

/-- Claim C10: a vertex with an empty bone-influence list gets (0, 0, 0)
written over its bind-pose slots by the software pass, under the position
transform and the delta transform alike. -/
theorem c10_boneless_vertex_written_zero (skin : Skin) (bm : List ℚ) (delta : Bool)
    (off stride v : Nat) (input out : List ℚ)
    (hstride : 3 ≤ stride) (hv : v < out.length / stride)
    (hb : off + v * stride + 2 < out.length)
    (hbones : skin.vertexBones v = []) :
    (skinAttributeData skin bm delta off stride input out).getD (off + v * stride) 0 = 0 ∧
    (skinAttributeData skin bm delta off stride input out).getD (off + v * stride + 1) 0 = 0 ∧
    (skinAttributeData skin bm delta off stride input out).getD (off + v * stride + 2) 0 = 0 := by
  have h := skinLoop_getD_slot skin bm delta off stride input hstride
    (out.length / stride) out v hv hb
  have hz : skinVertex skin bm delta v (input.getD (off + v * stride) 0)
      (input.getD (off + v * stride + 1) 0) (input.getD (off + v * stride + 2) 0)
      = ((0 : ℚ), (0 : ℚ), (0 : ℚ)) := by
    simp [skinVertex, hbones]
  rw [hz] at h
  simp only [Prod.ext_iff] at h
  exact ⟨h.1, h.2.1, h.2.2⟩

/-- Concrete run of C10: a boneless vertex has its live slots (10, 20, 30)
overwritten with zeros rather than preserved. -/
theorem c10_boneless_vertex_written_zero_witness :
    (skinAttributeData bonelessSkin (bonelessSkin.matricesOf 0) false 0 3
        [1, 2, 3] [10, 20, 30]).getD (0 + 0 * 3) 0 = 0 ∧
    (skinAttributeData bonelessSkin (bonelessSkin.matricesOf 0) false 0 3
        [1, 2, 3] [10, 20, 30]).getD (0 + 0 * 3 + 1) 0 = 0 ∧
    (skinAttributeData bonelessSkin (bonelessSkin.matricesOf 0) false 0 3
        [1, 2, 3] [10, 20, 30]).getD (0 + 0 * 3 + 2) 0 = 0 :=
  c10_boneless_vertex_written_zero bonelessSkin (bonelessSkin.matricesOf 0) false 0 3 0
    [1, 2, 3] [10, 20, 30] (by decide) (by decide) (by decide) rfl

/-- A fold that adds componentwise over a triple computes the three sums. -/
theorem foldl_add_triple (l : List (Nat × ℚ)) (f g h : Nat × ℚ → ℚ) :
    ∀ acc : ℚ × ℚ × ℚ,
      l.foldl (fun a x => (a.1 + f x, a.2.1 + g x, a.2.2 + h x)) acc
        = (acc.1 + (l.map f).sum, acc.2.1 + (l.map g).sum, acc.2.2 + (l.map h).sum) := by
  induction l with
  | nil => intro acc; simp
  | cons x xs ih => intro acc; simp [ih, add_assoc]

/-- skinVertex with the position transform is the weighted sum, over the
influence list of the vertex, of the affine action of each bone matrix
(16 row-major floats per bone, starting at boneId * 16) on the bind-pose
coordinate. -/
theorem skinVertex_position_eq_sum (skin : Skin) (bm : List ℚ) (v : Nat) (x1 y1 z1 : ℚ) :
    skinVertex skin bm false v x1 y1 z1 =
      (((skin.vertexBones v).map fun bw => bw.2 * (bm.getD (bw.1 * 16) 0 * x1
          + bm.getD (bw.1 * 16 + 1) 0 * y1 + bm.getD (bw.1 * 16 + 2) 0 * z1
          + bm.getD (bw.1 * 16 + 3) 0)).sum,
       ((skin.vertexBones v).map fun bw => bw.2 * (bm.getD (bw.1 * 16 + 4) 0 * x1
          + bm.getD (bw.1 * 16 + 5) 0 * y1 + bm.getD (bw.1 * 16 + 6) 0 * z1
          + bm.getD (bw.1 * 16 + 7) 0)).sum,
       ((skin.vertexBones v).map fun bw => bw.2 * (bm.getD (bw.1 * 16 + 8) 0 * x1
          + bm.getD (bw.1 * 16 + 9) 0 * y1 + bm.getD (bw.1 * 16 + 10) 0 * z1
          + bm.getD (bw.1 * 16 + 11) 0)).sum) := by
  have h16 : ∀ a : Nat, a <<< 4 = a * 16 := fun a => by rw [Nat.shiftLeft_eq]
  simp only [skinVertex, h16, Nat.add_zero, Bool.false_eq_true, if_false]
  rw [foldl_add_triple]
  simp

/-- updateFrame in SOFTWARE mode with a tracked target and an in-range frame
runs the software blend with the matrices of that frame. -/
theorem updateFrame_software (s : SkinningState) (t : Node) (frameId : Nat)
    (hm : s.method = SkinningMethod.SOFTWARE)
    (hg : s.targetGeometry t ≠ none) (hf : frameId < s.skin.numFrames) :
    updateFrame s t frameId = performSoftwareSkinning s t (s.skin.matricesOf frameId) := by
  unfold updateFrame
  rw [if_neg (by push_neg; exact ⟨hg, by omega⟩), hm]
  simp

/-- In the software path, the geometry tracked for the target after
performSoftwareSkinning holds the position buffer rewritten through the
vertex loop from the stored position snapshot. -/
theorem performSoftwareSkinning_positionBuffer (s : SkinningState) (t : Node)
    (bm : List ℚ) (g : Geometry) (pb : VertexBuffer) (attr : VertexAttribute) (inp : List ℚ)
    (hg : s.targetGeometry t = some g)
    (hpb : g.positionBuffer = some pb)
    (hattr : pb.findAttribute ATTRNAME_POSITION = some attr)
    (hinp : s.targetInputPositions t = some inp) :
    ((performSoftwareSkinning s t bm).targetGeometry t).bind Geometry.positionBuffer
      = some (performSoftwareSkinningAttr s.skin attr pb inp bm false) := by
  simp only [performSoftwareSkinning, hg, hpb, hinp, hattr]
  cases hnb : g.normalBuffer with
  | none => simp
  | some nb =>
      cases hni : s.targetInputNormals t with
      | none => simp
      | some inpN =>
          cases hfa : nb.findAttribute ATTRNAME_NORMAL with
          | none => simp [hfa]
          | some nattr => simp [hfa]

/-- Claim C1: for a registered target and an in-range frame, the software
path writes into each vertex position slot the weighted sum, over the
(boneId, weight) pairs of the vertex, of the affine action of the row-major
bone matrix on the bind-pose coordinate (x1, y1, z1) read from the snapshot
captured at attachment, never from the live buffer: row 0..3 for x, rows
4..7 for y and 8..11 for z. -/
theorem c1_software_position_weighted_sum (s : SkinningState) (t : Node) (frameId : Nat)
    (g : Geometry) (pb : VertexBuffer) (attr : VertexAttribute) (inp : List ℚ) (v : Nat)
    (hm : s.method = SkinningMethod.SOFTWARE)
    (hg : s.targetGeometry t = some g)
    (hf : frameId < s.skin.numFrames)
    (hpb : g.positionBuffer = some pb)
    (hattr : pb.findAttribute ATTRNAME_POSITION = some attr)
    (hinp : s.targetInputPositions t = some inp)
    (hstride : 3 ≤ pb.vertexSize)
    (hv : v < pb.data.length / pb.vertexSize)
    (hb : attr.offset + v * pb.vertexSize + 2 < pb.data.length) :
    ∃ g2 pb2, (updateFrame s t frameId).targetGeometry t = some g2 ∧
      g2.positionBuffer = some pb2 ∧
      pb2.data.getD (attr.offset + v * pb.vertexSize) 0
        = ((s.skin.vertexBones v).map fun bw =>
            bw.2 * ((s.skin.matricesOf frameId).getD (bw.1 * 16) 0
                * inp.getD (attr.offset + v * pb.vertexSize) 0
              + (s.skin.matricesOf frameId).getD (bw.1 * 16 + 1) 0
                * inp.getD (attr.offset + v * pb.vertexSize + 1) 0
              + (s.skin.matricesOf frameId).getD (bw.1 * 16 + 2) 0
                * inp.getD (attr.offset + v * pb.vertexSize + 2) 0
              + (s.skin.matricesOf frameId).getD (bw.1 * 16 + 3) 0)).sum ∧
      pb2.data.getD (attr.offset + v * pb.vertexSize + 1) 0
        = ((s.skin.vertexBones v).map fun bw =>
            bw.2 * ((s.skin.matricesOf frameId).getD (bw.1 * 16 + 4) 0
                * inp.getD (attr.offset + v * pb.vertexSize) 0
              + (s.skin.matricesOf frameId).getD (bw.1 * 16 + 5) 0
                * inp.getD (attr.offset + v * pb.vertexSize + 1) 0
              + (s.skin.matricesOf frameId).getD (bw.1 * 16 + 6) 0
                * inp.getD (attr.offset + v * pb.vertexSize + 2) 0
              + (s.skin.matricesOf frameId).getD (bw.1 * 16 + 7) 0)).sum ∧
      pb2.data.getD (attr.offset + v * pb.vertexSize + 2) 0
        = ((s.skin.vertexBones v).map fun bw =>
            bw.2 * ((s.skin.matricesOf frameId).getD (bw.1 * 16 + 8) 0
                * inp.getD (attr.offset + v * pb.vertexSize) 0
              + (s.skin.matricesOf frameId).getD (bw.1 * 16 + 9) 0
                * inp.getD (attr.offset + v * pb.vertexSize + 1) 0
              + (s.skin.matricesOf frameId).getD (bw.1 * 16 + 10) 0
                * inp.getD (attr.offset + v * pb.vertexSize + 2) 0
              + (s.skin.matricesOf frameId).getD (bw.1 * 16 + 11) 0)).sum := by
  rw [updateFrame_software s t frameId hm (by rw [hg]; simp) hf]
  have hbind := performSoftwareSkinning_positionBuffer s t (s.skin.matricesOf frameId)
    g pb attr inp hg hpb hattr hinp
  rw [Option.bind_eq_some] at hbind
  obtain ⟨g2, hg2, hpb2⟩ := hbind
  have hslot := skinLoop_getD_slot s.skin (s.skin.matricesOf frameId) false
    attr.offset pb.vertexSize inp hstride (pb.data.length / pb.vertexSize) pb.data v hv hb
  rw [skinVertex_position_eq_sum] at hslot
  simp only [Prod.ext_iff] at hslot
  refine ⟨g2, performSoftwareSkinningAttr s.skin attr pb inp (s.skin.matricesOf frameId) false,
    hg2, hpb2, ?_, ?_, ?_⟩
  · simpa only [performSoftwareSkinningAttr, skinAttributeData] using hslot.1
  · simpa only [performSoftwareSkinningAttr, skinAttributeData] using hslot.2.1
  · simpa only [performSoftwareSkinningAttr, skinAttributeData] using hslot.2.2

/-- Concrete run of C1: a one-vertex position buffer over the identity bone
matrix, snapshot (1, 2, 3), frame 0. -/
theorem c1_software_position_weighted_sum_witness :
    ∃ g2 pb2, (updateFrame testTrackedState 0 0).targetGeometry 0 = some g2 ∧
      g2.positionBuffer = some pb2 ∧
      pb2.data.getD (0 + 0 * 3) 0
        = ((testSkin8.vertexBones 0).map fun bw =>
            bw.2 * ((testSkin8.matricesOf 0).getD (bw.1 * 16) 0
                * (([1, 2, 3] : List ℚ).getD (0 + 0 * 3) 0)
              + (testSkin8.matricesOf 0).getD (bw.1 * 16 + 1) 0
                * (([1, 2, 3] : List ℚ).getD (0 + 0 * 3 + 1) 0)
              + (testSkin8.matricesOf 0).getD (bw.1 * 16 + 2) 0
                * (([1, 2, 3] : List ℚ).getD (0 + 0 * 3 + 2) 0)
              + (testSkin8.matricesOf 0).getD (bw.1 * 16 + 3) 0)).sum ∧
      pb2.data.getD (0 + 0 * 3 + 1) 0
        = ((testSkin8.vertexBones 0).map fun bw =>
            bw.2 * ((testSkin8.matricesOf 0).getD (bw.1 * 16 + 4) 0
                * (([1, 2, 3] : List ℚ).getD (0 + 0 * 3) 0)
              + (testSkin8.matricesOf 0).getD (bw.1 * 16 + 5) 0
                * (([1, 2, 3] : List ℚ).getD (0 + 0 * 3 + 1) 0)
              + (testSkin8.matricesOf 0).getD (bw.1 * 16 + 6) 0
                * (([1, 2, 3] : List ℚ).getD (0 + 0 * 3 + 2) 0)
              + (testSkin8.matricesOf 0).getD (bw.1 * 16 + 7) 0)).sum ∧
      pb2.data.getD (0 + 0 * 3 + 2) 0
        = ((testSkin8.vertexBones 0).map fun bw =>
            bw.2 * ((testSkin8.matricesOf 0).getD (bw.1 * 16 + 8) 0
                * (([1, 2, 3] : List ℚ).getD (0 + 0 * 3) 0)
              + (testSkin8.matricesOf 0).getD (bw.1 * 16 + 9) 0
                * (([1, 2, 3] : List ℚ).getD (0 + 0 * 3 + 1) 0)
              + (testSkin8.matricesOf 0).getD (bw.1 * 16 + 10) 0
                * (([1, 2, 3] : List ℚ).getD (0 + 0 * 3 + 2) 0)
              + (testSkin8.matricesOf 0).getD (bw.1 * 16 + 11) 0)).sum :=
  c1_software_position_weighted_sum testTrackedState 0 0 testGeometrySW testPositionBuffer
    ⟨ATTRNAME_POSITION, 3, 0⟩ [1, 2, 3] 0 rfl rfl (by decide) rfl (by decide) rfl
    (by decide) (by decide) (by decide)

/-- Claim C4 (code bug): the packing loop of createVertexBufferForBones
bounds both fill loops by vertexSize >> 2 = 4, although the row layout, the
cap MAX_NUM_BONES_PER_VERTEX = 8 and the boneIdsB / boneWeightsB attributes
all provide 8 slots per group.  For the five-bone vertex (ids 1..5, weights
1), slots 0..3 of each group are filled but slot 4 of the id group and slot
4 of the weight group (float 12) stay 0 instead of holding bone 4's id 5 and
weight 1. -/
theorem c4_packing_caps_at_four_bones :
    (createVertexBufferForBones fiveBoneSkin).data.length = 16 ∧
    (createVertexBufferForBones fiveBoneSkin).vertexSize = 16 ∧
    (createVertexBufferForBones fiveBoneSkin).data.getD 3 0 = 4 ∧
    (createVertexBufferForBones fiveBoneSkin).data.getD 11 0 = 1 ∧
    (createVertexBufferForBones fiveBoneSkin).data.getD 4 0 = 0 ∧
    (createVertexBufferForBones fiveBoneSkin).data.getD 12 0 = 0 := by
  decide

/-- Claim C6: attaching a compatible, previously untracked node and then
detaching it leaves all four per-target maps exactly as before the attach
(in particular with no entry for that node) whatever the skinning method,
and in non-SOFTWARE mode the returned geometry additionally has the bone
vertex buffer detached and both property bindings removed. -/
theorem c6_attach_detach_roundtrip (s : SkinningState) (roots1 roots2 : List Nat)
    (node : Node) (g : Geometry) (pb : VertexBuffer) (now : ℚ)
    (s1 : SkinningState) (res : SkinningState × Option Geometry)
    (hunG : s.targetGeometry node = none)
    (hunT : s.targetStartTime node = none)
    (hunP : s.targetInputPositions node = none)
    (hunN : s.targetInputNormals node = none)
    (hdur : ¬ s.skin.duration < mkRat 1 1000000)
    (hpb : g.positionBuffer = some pb)
    (hnv : pb.numVertices = s.skin.numVertices)
    (h1 : addedHandler s roots1 node (some g) now = Except.ok s1)
    (h2 : removedHandler s1 roots2 node = Except.ok res) :
    (∀ n, res.1.targetGeometry n = s.targetGeometry n) ∧
    (∀ n, res.1.targetStartTime n = s.targetStartTime n) ∧
    (∀ n, res.1.targetInputPositions n = s.targetInputPositions n) ∧
    (∀ n, res.1.targetInputNormals n = s.targetInputNormals n) ∧
    res.1.targetGeometry node = none ∧
    res.1.targetStartTime node = none ∧
    res.1.targetInputPositions node = none ∧
    res.1.targetInputNormals node = none ∧
    (s.method ≠ SkinningMethod.SOFTWARE →
      ∃ g2, res.2 = some g2 ∧ g2.hasBoneBuffer = false ∧
        g2.propNumBones = none ∧ g2.propBoneMatrices = none) := by
  unfold addedHandler at h1
  cases hfs1 : findSceneManager roots1 s.frameBeginSlot with
  | error e => rw [hfs1] at h1; simp at h1
  | ok slot1 =>
  rw [hfs1] at h1
  injection h1 with h1
  have h1g : ∀ n, s1.targetGeometry n
      = (if n = node then
          some (if s.method ≠ SkinningMethod.SOFTWARE then
                  { g with hasBoneBuffer := true,
                           propBoneMatrices := some (0, ([] : List ℚ)),
                           propNumBones := some 0 }
                else g)
        else s.targetGeometry n) := by
    intro n; rw [← h1]
    by_cases hmeth : s.method = SkinningMethod.SOFTWARE <;>
      simp [addedHandlerBody, hdur, hpb, hnv, hmeth]
  have h1t : ∀ n, s1.targetStartTime n
      = (if n = node then some now else s.targetStartTime n) := by
    intro n; rw [← h1]; simp [addedHandlerBody, hdur, hpb, hnv]
  have h1p : ∀ n, s1.targetInputPositions n
      = (if n = node then some pb.data else s.targetInputPositions n) := by
    intro n; rw [← h1]; simp [addedHandlerBody, hdur, hpb, hnv]
  have h1n : ∀ n, n ≠ node → s1.targetInputNormals n = s.targetInputNormals n := by
    intro n hn
    rw [← h1]
    cases hnb : g.normalBuffer with
    | none => simp [addedHandlerBody, hdur, hpb, hnv, hnb]
    | some nb =>
        by_cases hc : nb.numVertices = s.skin.numVertices <;>
          simp [addedHandlerBody, hdur, hpb, hnv, hnb, hc, hn]
  have h1m : s1.method = s.method := by
    rw [← h1]; simp [addedHandlerBody, hdur, hpb, hnv]
  unfold removedHandler at h2
  cases hfs2 : findSceneManager roots2 s1.frameBeginSlot with
  | error e => rw [hfs2] at h2; simp at h2
  | ok slot2 =>
  rw [hfs2] at h2
  injection h2 with h2
  subst h2
  have hrem : removedHandlerBody { s1 with frameBeginSlot := slot2 } node
      = ({ s1 with
            frameBeginSlot := slot2,
            targetGeometry := fun n => if n = node then none else s1.targetGeometry n,
            targetStartTime := fun n => if n = node then none else s1.targetStartTime n,
            targetInputPositions := fun n => if n = node then none else s1.targetInputPositions n,
            targetInputNormals := fun n => if n = node then none else s1.targetInputNormals n },
         some (if s.method ≠ SkinningMethod.SOFTWARE then
                 { g with hasBoneBuffer := false, propBoneMatrices := none, propNumBones := none }
               else g)) := by
    by_cases hmeth : s.method = SkinningMethod.SOFTWARE
    · have hS2g : s1.targetGeometry node = some g := by simp [h1g, hmeth]
      simp [removedHandlerBody, hS2g, h1m, hmeth]
    · have hS2g : s1.targetGeometry node
          = some { g with hasBoneBuffer := true,
                          propBoneMatrices := some (0, ([] : List ℚ)),
                          propNumBones := some 0 } := by
        simp [h1g, hmeth]
      simp [removedHandlerBody, hS2g, h1m, hmeth]
  rw [hrem]
  refine ⟨?_, ?_, ?_, ?_, by simp [hunG], by simp [hunT], by simp [hunP], by simp [hunN],
    fun hne => ⟨{ g with hasBoneBuffer := false, propBoneMatrices := none, propNumBones := none },
      by simp only [if_pos hne], rfl, rfl, rfl⟩⟩
  · intro n
    by_cases hn : n = node
    · subst hn; simp [hunG]
    · simp [hn, h1g]
  · intro n
    by_cases hn : n = node
    · subst hn; simp [hunT]
    · simp [hn, h1t]
  · intro n
    by_cases hn : n = node
    · subst hn; simp [hunP]
    · simp [hn, h1p]
  · intro n
    by_cases hn : n = node
    · subst hn; simp [hunN]
    · simp [hn, h1n n hn]

/-- Concrete run of C6: attach node 0 to the hardware-mode empty state and
detach it again; the maps return to empty and the geometry loses the bone
buffer and both bindings. -/
theorem c6_attach_detach_roundtrip_witness :
    addedHandler testEmptyStateHW [] 0 (some testGeometrySW) 0 = Except.ok testAttachedStateHW ∧
    removedHandler testAttachedStateHW [] 0 = Except.ok testDetachedResultHW ∧
    ((∀ n, testDetachedResultHW.1.targetGeometry n = testEmptyStateHW.targetGeometry n) ∧
     (∀ n, testDetachedResultHW.1.targetStartTime n = testEmptyStateHW.targetStartTime n) ∧
     (∀ n, testDetachedResultHW.1.targetInputPositions n = testEmptyStateHW.targetInputPositions n) ∧
     (∀ n, testDetachedResultHW.1.targetInputNormals n = testEmptyStateHW.targetInputNormals n) ∧
     testDetachedResultHW.1.targetGeometry 0 = none ∧
     testDetachedResultHW.1.targetStartTime 0 = none ∧
     testDetachedResultHW.1.targetInputPositions 0 = none ∧
     testDetachedResultHW.1.targetInputNormals 0 = none ∧
     (testEmptyStateHW.method ≠ SkinningMethod.SOFTWARE →
       ∃ g2, testDetachedResultHW.2 = some g2 ∧ g2.hasBoneBuffer = false ∧
         g2.propNumBones = none ∧ g2.propBoneMatrices = none)) ∧
    (∃ g2, testDetachedResultHW.2 = some g2 ∧ g2.hasBoneBuffer = false ∧
      g2.propNumBones = none ∧ g2.propBoneMatrices = none) :=
  let H := c6_attach_detach_roundtrip testEmptyStateHW [] [] 0 testGeometrySW
    testPositionBuffer 0 testAttachedStateHW testDetachedResultHW rfl rfl rfl rfl
    (by decide) rfl (by decide) rfl rfl
  ⟨rfl, rfl, H, H.2.2.2.2.2.2.2.2 (by decide)⟩

/-- Counterexample to claim C7 as stated: attaching a compatible node whose
geometry has no normal attribute registers it in the geometry, startTime and
inputPositions maps but not in inputNormals, so the four per-target maps do
not share a key set after this attach. -/
theorem c7_counterexample_normals_map_lags :
    addedHandler testEmptyState [] 0 (some testGeometrySW) 0 = Except.ok testAttachedStateSW ∧
    (testAttachedStateSW.targetGeometry 0).isSome = true ∧
    (testAttachedStateSW.targetStartTime 0).isSome = true ∧
    (testAttachedStateSW.targetInputPositions 0).isSome = true ∧
    (testAttachedStateSW.targetInputNormals 0).isSome = false := by
  refine ⟨rfl, ?_, ?_, ?_, ?_⟩ <;> decide

/-- addedHandlerBody preserves the amended tracking invariant. -/
theorem addedHandlerBody_tracks (s : SkinningState) (node : Node) (gOpt : Option Geometry)
    (now : ℚ) (hinv : tracksConsistently s) :
    tracksConsistently (addedHandlerBody s node gOpt now) := by
  by_cases hdur : s.skin.duration < mkRat 1 1000000
  · simpa [addedHandlerBody, hdur] using hinv
  cases gOpt with
  | none => simpa [addedHandlerBody, hdur] using hinv
  | some geometry =>
    cases hpb : geometry.positionBuffer with
    | none => simpa [addedHandlerBody, hdur, hpb] using hinv
    | some pb =>
      by_cases hnv : pb.numVertices = s.skin.numVertices
      · intro n
        by_cases hn : n = node
        · subst hn
          cases hnb : geometry.normalBuffer with
          | none => simp [addedHandlerBody, hdur, hpb, hnv, hnb]
          | some nb =>
              by_cases hc : nb.numVertices = s.skin.numVertices <;>
                simp [addedHandlerBody, hdur, hpb, hnv, hnb, hc]
        · cases hnb : geometry.normalBuffer with
          | none => simpa [addedHandlerBody, hdur, hpb, hnv, hnb, hn] using hinv n
          | some nb =>
              by_cases hc : nb.numVertices = s.skin.numVertices <;>
                simpa [addedHandlerBody, hdur, hpb, hnv, hnb, hc, hn] using hinv n
      · simpa [addedHandlerBody, hdur, hpb, hnv] using hinv

/-- removedHandlerBody preserves the amended tracking invariant. -/
theorem removedHandlerBody_tracks (s : SkinningState) (target : Node)
    (hinv : tracksConsistently s) :
    tracksConsistently (removedHandlerBody s target).1 := by
  cases hg : s.targetGeometry target with
  | some geometry =>
      intro n
      by_cases hn : n = target
      · subst hn; simp [removedHandlerBody, hg]
      · simpa [removedHandlerBody, hg, hn] using hinv n
  | none =>
      intro n
      by_cases hn : n = target
      · subst hn; simp [removedHandlerBody, hg]
      · simpa [removedHandlerBody, hg, hn] using hinv n

/-- Claim C7 amended: after every attach or detach, the geometry, startTime
and inputPositions maps have identical key sets, and the inputNormals key
set is a subset of them (a node gets an inputNormals entry only while
tracked); an attach of a geometry without a normal attribute leaves
inputNormals without the new key, so full four-way equality fails. -/
theorem c7_tracking_key_sets_amended (s : SkinningState) (roots : List Nat) (node : Node)
    (gOpt : Option Geometry) (now : ℚ) (hinv : tracksConsistently s) :
    (∀ s1, addedHandler s roots node gOpt now = Except.ok s1 → tracksConsistently s1) ∧
    (∀ res, removedHandler s roots node = Except.ok res → tracksConsistently res.1) := by
  constructor
  · intro s1 h1
    unfold addedHandler at h1
    cases hfs : findSceneManager roots s.frameBeginSlot with
    | error e => rw [hfs] at h1; simp at h1
    | ok slot =>
        rw [hfs] at h1
        injection h1 with h1
        rw [← h1]
        exact addedHandlerBody_tracks _ node gOpt now hinv
  · intro res h2
    unfold removedHandler at h2
    cases hfs : findSceneManager roots s.frameBeginSlot with
    | error e => rw [hfs] at h2; simp at h2
    | ok slot =>
        rw [hfs] at h2
        injection h2 with h2
        rw [← h2]
        exact removedHandlerBody_tracks _ node hinv

/-- Concrete run of the amended C7: the empty state satisfies the invariant
and still satisfies it after attaching the normal-free geometry. -/
theorem c7_tracking_key_sets_amended_witness :
    tracksConsistently testEmptyState ∧ tracksConsistently testAttachedStateSW :=
  ⟨fun _ => ⟨rfl, rfl, fun h => h⟩,
   (c7_tracking_key_sets_amended testEmptyState [] 0 (some testGeometrySW) 0
     (fun _ => ⟨rfl, rfl, fun h => h⟩)).1 testAttachedStateSW rfl⟩

end Minko
